import Mathlib

/-!
Verification of the parsefy SDK core (schema projector, result decoder,
input gate, client construction) against its specification.

The Python source is shallowly embedded: JSON values become an inductive
tree, dict access and Python truthiness are modelled explicitly, and each
fallible operation returns `Except PyException _`, mirroring the exception
that the Python code would raise.
-/

namespace Parsefy

/-- A JSON value as produced by `response.json()`: Python `None`, `bool`,
numbers (modelled as rationals, covering both `int` and `float` payloads),
strings, lists, and dicts (ordered association lists with unique keys). -/
inductive JsonValue where
  | null
  | bool (b : Bool)
  | num (q : Rat)
  | str (s : String)
  | arr (xs : List JsonValue)
  | obj (kvs : List (String × JsonValue))
deriving Repr

namespace JsonValue

/-- Python `d[k]` membership / `d.get(k)` on a dict: first binding of `k`. -/
def get? : JsonValue → String → Option JsonValue
  | .obj kvs, k => (kvs.find? (fun kv => kv.1 == k)).map (fun kv => kv.2)
  | _, _ => none

/-- Python truthiness of a JSON value (`bool(v)`): `None`, `False`, zero,
empty string, empty list and empty dict are falsy. -/
def truthy : JsonValue → Bool
  | .null => false
  | .bool b => b
  | .num q => !(q == 0)
  | .str s => !(s == "")
  | .arr xs => !xs.isEmpty
  | .obj kvs => !kvs.isEmpty

/-- Is this JSON value Python `None`? -/
def isNull : JsonValue → Bool
  | .null => true
  | _ => false

end JsonValue

mutual

/-- `Parsefy._strip_titles`, functionally: delete the `title` key of every
dict node, recursing into the remaining dict values and into list items.
Scalar leaves are left untouched. -/
def strip_titles : JsonValue → JsonValue
  | .null => .null
  | .bool b => .bool b
  | .num q => .num q
  | .str s => .str s
  | .arr xs => .arr (strip_titles_arr xs)
  | .obj kvs => .obj (strip_titles_obj kvs)

/-- Recurse into each item of a list node. -/
def strip_titles_arr : List JsonValue → List JsonValue
  | [] => []
  | x :: xs => strip_titles x :: strip_titles_arr xs

/-- Delete the `title` binding of a dict node and recurse into the values
of the remaining bindings. -/
def strip_titles_obj : List (String × JsonValue) → List (String × JsonValue)
  | [] => []
  | (k, v) :: kvs =>
      if k == "title" then strip_titles_obj kvs
      else (k, strip_titles v) :: strip_titles_obj kvs

end

mutual

/-- Does a `title` key occur in some dict node at any depth? -/
def hasTitle : JsonValue → Bool
  | .null => false
  | .bool _ => false
  | .num _ => false
  | .str _ => false
  | .arr xs => hasTitleArr xs
  | .obj kvs => hasTitleObj kvs

/-- `hasTitle` over the items of a list node. -/
def hasTitleArr : List JsonValue → Bool
  | [] => false
  | x :: xs => hasTitle x || hasTitleArr xs

/-- `hasTitle` over the bindings of a dict node. -/
def hasTitleObj : List (String × JsonValue) → Bool
  | [] => false
  | (k, v) :: kvs => k == "title" || hasTitle v || hasTitleObj kvs

end

mutual

theorem strip_titles_idem : (v : JsonValue) → strip_titles (strip_titles v) = strip_titles v
  | .null => rfl
  | .bool _ => rfl
  | .num _ => rfl
  | .str _ => rfl
  | .arr xs => congrArg JsonValue.arr (strip_titles_arr_idem xs)
  | .obj kvs => congrArg JsonValue.obj (strip_titles_obj_idem kvs)

theorem strip_titles_arr_idem :
    (xs : List JsonValue) → strip_titles_arr (strip_titles_arr xs) = strip_titles_arr xs
  | [] => rfl
  | x :: xs => by
      simp [strip_titles_arr, strip_titles_idem x, strip_titles_arr_idem xs]

theorem strip_titles_obj_idem :
    (kvs : List (String × JsonValue)) → strip_titles_obj (strip_titles_obj kvs) = strip_titles_obj kvs
  | [] => rfl
  | (k, v) :: kvs => by
      by_cases hk : k = "title" <;>
        simp [strip_titles_obj, hk, strip_titles_idem v, strip_titles_obj_idem kvs]

end

mutual

theorem hasTitle_strip_titles : (v : JsonValue) → hasTitle (strip_titles v) = false
  | .null => rfl
  | .bool _ => rfl
  | .num _ => rfl
  | .str _ => rfl
  | .arr xs => hasTitleArr_strip_titles_arr xs
  | .obj kvs => hasTitleObj_strip_titles_obj kvs

theorem hasTitleArr_strip_titles_arr :
    (xs : List JsonValue) → hasTitleArr (strip_titles_arr xs) = false
  | [] => rfl
  | x :: xs => by
      simp [strip_titles_arr, hasTitle, hasTitleArr,
        hasTitle_strip_titles x, hasTitleArr_strip_titles_arr xs]

theorem hasTitleObj_strip_titles_obj :
    (kvs : List (String × JsonValue)) → hasTitleObj (strip_titles_obj kvs) = false
  | [] => rfl
  | (k, v) :: kvs => by
      by_cases hk : k = "title" <;>
        simp [strip_titles_obj, hasTitleObj, hk,
          hasTitle_strip_titles v, hasTitleObj_strip_titles_obj kvs]

end

/-- C4: the title-stripping projection is a total function over every
JSON-shaped tree (it is defined by structural recursion covering dicts,
lists and all scalar leaves), it is idempotent, and no `title` key survives
at any depth in its output. -/
theorem claim_C4_strip_titles_total_idempotent_noTitle :
    ∀ v : JsonValue,
      strip_titles (strip_titles v) = strip_titles v ∧ hasTitle (strip_titles v) = false :=
  fun v => ⟨strip_titles_idem v, hasTitle_strip_titles v⟩

/-- A JSON Schema for an object with a single property whose field name is
`title` (carrying a `description`), listed in `required`. -/
def titleFieldSchema : JsonValue :=
  .obj [("type", .str "object"),
        ("properties", .obj [("title",
          .obj [("type", .str "string"), ("description", .str "Document title")])]),
        ("required", .arr [.str "title"])]

/-- C3: evaluating the title-stripping projection on a schema that has a
property legitimately named `title` shows the code deleting that property
entry wholesale (its `description` included) from the `properties` dict,
because `_strip_titles` deletes the key `title` from every dict it visits,
the `properties` mapping included. The spec requires that such a property
keep its schema entry and its description. -/
theorem claim_C3_title_named_property_dropped :
    strip_titles titleFieldSchema =
      .obj [("type", .str "object"),
            ("properties", .obj []),
            ("required", .arr [.str "title"])] := rfl

/-! ## Result decoder (`Parsefy._parse_response` and `parsefy.types`) -/

/-- `parsefy.types.FieldConfidence`. -/
structure FieldConfidence where
  field : String
  score : Rat
  reason : String
  page : Option Int
  text : Option String
deriving Repr, DecidableEq

/-- `parsefy.types.ExtractionMeta`. -/
structure ExtractionMeta where
  confidence_score : Rat
  field_confidence : List FieldConfidence
  issues : List String
deriving Repr, DecidableEq

/-- `parsefy.types.ExtractionMetadata` (only the three declared fields;
extra constructor keyword arguments are discarded by the validator). -/
structure ExtractionMetadata where
  processing_time_ms : Int
  credits : Int
  fallback_triggered : Bool
deriving Repr, DecidableEq

/-- `parsefy.types.APIErrorDetail`. -/
structure APIErrorDetail where
  code : String
  message : String
deriving Repr, DecidableEq

/-- `parsefy.types.VerificationCheck`. -/
structure VerificationCheck where
  type : String
  status : String
  fields : List String
  passed : Bool
  delta : Rat
  expected : Rat
  actual : Rat
deriving Repr, DecidableEq

/-- `parsefy.types.Verification`. -/
structure Verification where
  status : String
  checks_passed : Int
  checks_failed : Int
  cannot_verify_count : Int
  checks_run : List VerificationCheck
deriving Repr, DecidableEq

/-- `parsefy.types.ExtractResult`, generic over the caller's target type. -/
structure ExtractResult (α : Type) where
  data : Option α
  meta : Option ExtractionMeta
  metadata : ExtractionMetadata
  verification : Option Verification
  error : Option APIErrorDetail
deriving Repr

/-- The best-effort capture of a non-2xx body: `response.json()` when it
decodes, otherwise `response.text`. -/
inductive CapturedBody where
  | jsonBody (v : JsonValue)
  | textBody (s : String)
deriving Repr

/-- The exceptions the embedded code can raise. `keyError`,
`attributeError`, `typeError` and `jsonDecodeError` model the Python
built-ins; `pydanticValidationError` models `pydantic.ValidationError`
(tagged with the model it was validating); `apiError` and
`validationError` model the SDK classes from `parsefy.errors`. -/
inductive PyException where
  | keyError (key : String)
  | attributeError (attr : String)
  | typeError (msg : String)
  | jsonDecodeError
  | pydanticValidationError (model : String)
  | apiError (message : String) (status_code : Nat) (response : CapturedBody)
  | validationError (message : String)
deriving Repr

/-- Whether an exception is an instance of the SDK base class
`parsefy.errors.ParsefyError` (whose subclasses in the source are
`APIError`, `ExtractionError` and `ValidationError`; `ExtractionError` is
never raised). Python built-ins and pydantic errors are not. -/
def isParsefyError : PyException → Bool
  | .apiError _ _ _ => true
  | .validationError _ => true
  | _ => false

/-- Python `d[k]` on a JSON value: `KeyError` when the key is missing,
`TypeError` when the value is not a dict. -/
def getKey (v : JsonValue) (k : String) : Except PyException JsonValue :=
  match v with
  | .obj kvs =>
      match kvs.find? (fun kv => kv.1 == k) with
      | some kv => .ok kv.2
      | none => .error (.keyError k)
  | _ => .error (.typeError "value is not subscriptable by a string key")

/-- Python `d.get(k)` on a JSON value: `None` for a missing key,
`AttributeError` when the value is not a dict. -/
def dictGet (v : JsonValue) (k : String) : Except PyException (Option JsonValue) :=
  match v with
  | .obj kvs => .ok ((kvs.find? (fun kv => kv.1 == k)).map (fun kv => kv.2))
  | _ => .error (.attributeError "get")

/-- Validation of a JSON value as a pydantic `str` field. -/
def asStr : JsonValue → Option String
  | .str s => some s
  | _ => none

/-- Validation of a JSON value as a pydantic `int` field: accepted when it
is a number with no fractional part. -/
def asInt : JsonValue → Option Int
  | .num q => if q.den = 1 then some q.num else none
  | _ => none

/-- Validation of a JSON value as a pydantic `float` field. -/
def asRat : JsonValue → Option Rat
  | .num q => some q
  | _ => none

/-- Validation of a JSON value as a pydantic `bool` field. -/
def asBool : JsonValue → Option Bool
  | .bool b => some b
  | _ => none

/-- Validation of a JSON value as a pydantic `int | None` field. -/
def asOptInt : JsonValue → Option (Option Int)
  | .null => some none
  | v => (asInt v).map some

/-- Validation of a JSON value as a pydantic `str | None` field. -/
def asOptStr : JsonValue → Option (Option String)
  | .null => some none
  | v => (asStr v).map some

/-- Validation of a JSON value as a pydantic `list[str]` field. -/
def asStrList : JsonValue → Option (List String)
  | .arr xs => xs.mapM asStr
  | _ => none

/-- The construction of `ExtractionMetadata` in `_parse_response`: the five
keyword arguments are read by subscripting `data["metadata"]` in source
order (raising `KeyError` on a missing key), then the validator checks the
three declared fields and discards `input_tokens` and `output_tokens`. -/
def parseExtractionMetadata (m : JsonValue) : Except PyException ExtractionMetadata := do
  let pt ← getKey m "processing_time_ms"
  let _ ← getKey m "input_tokens"
  let _ ← getKey m "output_tokens"
  let cr ← getKey m "credits"
  let fb ← getKey m "fallback_triggered"
  match asInt pt, asInt cr, asBool fb with
  | some p, some c, some f =>
      pure { processing_time_ms := p, credits := c, fallback_triggered := f }
  | _, _, _ => throw (.pydanticValidationError "ExtractionMetadata")

/-- The construction of one `FieldConfidence` in `_parse_response`: the
five keys are subscripted in source order, then the model validates. -/
def parseFieldConfidence (fc : JsonValue) : Except PyException FieldConfidence := do
  let f ← getKey fc "field"
  let s ← getKey fc "score"
  let r ← getKey fc "reason"
  let p ← getKey fc "page"
  let t ← getKey fc "text"
  match asStr f, asRat s, asStr r, asOptInt p, asOptStr t with
  | some f, some s, some r, some p, some t =>
      pure { field := f, score := s, reason := r, page := p, text := t }
  | _, _, _, _, _ => throw (.pydanticValidationError "FieldConfidence")

/-- The list comprehension over `meta_data.get("field_confidence", [])`:
each entry is decoded in order; iterating a non-list raises. -/
def parseFieldConfidenceList (fcRaw : Option JsonValue) :
    Except PyException (List FieldConfidence) :=
  match fcRaw.getD (.arr []) with
  | .arr xs => xs.mapM parseFieldConfidence
  | _ => throw (.typeError "field_confidence is not a list of dicts")

/-- The `_meta` branch of `_parse_response`: build the `field_confidence`
list from `meta_data.get("field_confidence", [])`, then construct
`ExtractionMeta` from `meta_data["confidence_score"]`, the list, and
`meta_data.get("issues", [])`. -/
def parseExtractionMeta (md : JsonValue) : Except PyException ExtractionMeta := do
  let fcRaw ← dictGet md "field_confidence"
  let fcs ← parseFieldConfidenceList fcRaw
  let cs ← getKey md "confidence_score"
  let issuesRaw ← dictGet md "issues"
  match asRat cs, asStrList (issuesRaw.getD (.arr [])) with
  | some c, some iss =>
      pure { confidence_score := c, field_confidence := fcs, issues := iss }
  | _, _ => throw (.pydanticValidationError "ExtractionMeta")

/-- The `error` branch of `_parse_response`: construct `APIErrorDetail`
from `data["error"]["code"]` and `data["error"]["message"]`. -/
def parseAPIErrorDetail (ev : JsonValue) : Except PyException APIErrorDetail := do
  let c ← getKey ev "code"
  let m ← getKey ev "message"
  match asStr c, asStr m with
  | some c, some m => pure { code := c, message := m }
  | _, _ => throw (.pydanticValidationError "APIErrorDetail")

/-- The caller's target type: a name (used to tag its validation errors)
and its own validation of an untyped JSON value, standing for pydantic's
`schema.model_validate`. `none` means the validator raised. -/
structure TargetType (α : Type) where
  name : String
  validate : JsonValue → Option α

/-- The `meta = None; if data.get("_meta"): meta = ExtractionMeta(...)`
step of `_parse_response`, as a function of the looked-up `_meta` value. -/
def parseOptMeta (metaVal : Option JsonValue) : Except PyException (Option ExtractionMeta) :=
  match metaVal with
  | some mv =>
      if mv.truthy then do
        let m ← parseExtractionMeta mv
        pure (some m)
      else pure none
  | none => pure none

/-- The `error = None; if data.get("error"): error = APIErrorDetail(...)`
step of `_parse_response`, as a function of the looked-up `error` value. -/
def parseOptError (errVal : Option JsonValue) : Except PyException (Option APIErrorDetail) :=
  match errVal with
  | some ev =>
      if ev.truthy then do
        let e ← parseAPIErrorDetail ev
        pure (some e)
      else pure none
  | none => pure none

/-- The `extracted_data = None; if data.get("object") is not None:
extracted_data = schema.model_validate(data["object"])` step of
`_parse_response`, as a function of the looked-up `object` value (Python's
`dict.get` conflates a missing key and an explicit `null`). -/
def parseObjectPayload {α : Type} (schema : TargetType α) (objVal : Option JsonValue) :
    Except PyException (Option α) :=
  let objPy := objVal.getD .null
  if objPy.isNull then pure none
  else
    match schema.validate objPy with
    | some a => pure (some a)
    | none => throw (.pydanticValidationError schema.name)

/-- An HTTP response as `_parse_response` observes it: the status code,
the result of `response.json()` (`none` when the body is not decodable
JSON), and `response.text`. -/
structure HttpResponse where
  status_code : Nat
  jsonBody : Option JsonValue
  textBody : String

/-- `Parsefy._parse_response`. Non-200 statuses raise `APIError` carrying
the status and the best-effort body capture; a 200 body is decoded in
source order: `metadata`, then the truthiness-guarded `_meta` and `error`
blocks, then the `object` payload validated against the target type. The
result's `verification` field is never assigned. -/
def parse_response {α : Type} (resp : HttpResponse) (schema : TargetType α) :
    Except PyException (ExtractResult α) := do
  if resp.status_code ≠ 200 then
    let detail := match resp.jsonBody with
      | some j => CapturedBody.jsonBody j
      | none => CapturedBody.textBody resp.textBody
    throw (.apiError ("API request failed with status " ++ toString resp.status_code)
      resp.status_code detail)
  else
    match resp.jsonBody with
    | none => throw .jsonDecodeError
    | some data => do
      let mObj ← getKey data "metadata"
      let metadata ← parseExtractionMetadata mObj
      let metaVal ← dictGet data "_meta"
      let meta ← parseOptMeta metaVal
      let errVal ← dictGet data "error"
      let error ← parseOptError errVal
      let objVal ← dictGet data "object"
      let extracted ← parseObjectPayload schema objVal
      pure { data := extracted, meta := meta, metadata := metadata,
             verification := none, error := error }

/-! ## Concrete decode scenarios -/

/-- The two-field target type of the spec's round-trip scenario
(`name : str`, `value : int`). -/
structure SampleTarget where
  name : String
  value : Int
deriving Repr, DecidableEq

/-- The two-field target type's own validation: the payload must be a dict
whose `name` is a string and whose `value` is an integral number; extra
keys are ignored, as the default pydantic configuration does. -/
def sampleTargetType : TargetType SampleTarget :=
  { name := "SampleSchema",
    validate := fun v =>
      match v.get? "name", v.get? "value" with
      | some (.str n), some (.num q) =>
          if q.den = 1 then some { name := n, value := q.num } else none
      | _, _ => none }

/-- A `metadata` block holding exactly the wire-contract keys
(`processing_time_ms`, `credits`, `fallback_triggered`). -/
def wireMetadataObj : JsonValue :=
  .obj [("processing_time_ms", .num 1500),
        ("credits", .num 1),
        ("fallback_triggered", .bool false)]

/-- A `metadata` block extended with the `input_tokens` / `output_tokens`
keys that `_parse_response` insists on reading (and then discards). -/
def fullMetadataObj : JsonValue :=
  .obj [("processing_time_ms", .num 1500),
        ("input_tokens", .num 1000),
        ("output_tokens", .num 50),
        ("credits", .num 1),
        ("fallback_triggered", .bool false)]

/-- The round-trip body of the spec: `object` with the two fields,
`metadata` with exactly the wire-contract keys, a `_meta` block with one
field-confidence entry, and `error:null`. -/
def roundTripBody : JsonValue :=
  .obj [("object", .obj [("name", .str "Test"), ("value", .num 42)]),
        ("_meta", .obj [("confidence_score", .num 0.95),
          ("field_confidence", .arr [.obj [("field", .str "$.name"),
            ("score", .num 0.98), ("reason", .str "Exact match"),
            ("page", .num 1), ("text", .str "Test")]])]),
        ("metadata", wireMetadataObj),
        ("error", .null)]

/-- C1: decoding the spec's round-trip body raises `KeyError` for
`input_tokens` instead of succeeding, because `_parse_response` subscripts
`data["metadata"]["input_tokens"]` (and `"output_tokens"`), keys that are
not in the wire contract, not fields of `ExtractionMetadata`, and not in
the body the repository's own `test_parse_successful_response` feeds it. -/
theorem claim_C1_round_trip_decode_raises_keyError :
    parse_response { status_code := 200, jsonBody := some roundTripBody, textBody := "" }
      sampleTargetType = .error (.keyError "input_tokens") := rfl

/-- A `verification` block as in the repository's own verification test. -/
def verificationObj : JsonValue :=
  .obj [("status", .str "PASSED"),
        ("checks_passed", .num 1),
        ("checks_failed", .num 0),
        ("cannot_verify_count", .num 0),
        ("checks_run", .arr [.obj [("type", .str "HORIZONTAL_SUM"),
          ("status", .str "PASSED"),
          ("fields", .arr [.str "total", .str "subtotal", .str "tax"]),
          ("passed", .bool true), ("delta", .num 0),
          ("expected", .num 1250), ("actual", .num 1250)]])]

/-- A 200 body carrying a well-formed `verification` block (with the extra
metadata token keys included so the decode reaches the end). -/
def verificationBody : JsonValue :=
  .obj [("object", .obj [("name", .str "Test"), ("value", .num 42)]),
        ("metadata", fullMetadataObj),
        ("verification", verificationObj),
        ("error", .null)]

/-- C2: a body that contains a `verification` key decodes with the
result's `verification` field absent: `_parse_response` never reads that
key and always constructs `ExtractResult` without it, contradicting the
spec and the repository's own `test_parse_response_with_verification`. -/
theorem claim_C2_verification_key_ignored :
    (verificationBody.get? "verification") = some verificationObj ∧
    (parse_response { status_code := 200, jsonBody := some verificationBody, textBody := "" }
        sampleTargetType).map
      (fun r => (r.verification, r.data)) = .ok (none, some { name := "Test", value := 42 }) :=
  ⟨rfl, rfl⟩

/-- An error-path body whose `error` value is the parameter `e`. -/
def errorPathBody (e : JsonValue) : JsonValue :=
  .obj [("object", .null),
        ("metadata", fullMetadataObj),
        ("error", e)]

/-- C7 counterexample: with `error:{}` — a non-null error value — the
decode succeeds but the result's `error` field is absent, because the code
guards the error branch with Python truthiness (`if data.get("error"):`)
rather than a non-null test. -/
theorem claim_C7_counterexample_empty_error_dict :
    (errorPathBody (.obj [])).get? "error" = some (.obj []) ∧
    (parse_response
        { status_code := 200, jsonBody := some (errorPathBody (.obj [])), textBody := "" }
        sampleTargetType).map
      (fun r => (r.data, r.error)) = .ok (none, none) :=
  ⟨rfl, rfl⟩

/-- C7 (amended): with `object:null` and a populated `error:{code,message}`
the decode succeeds, `data` is absent and the error detail is verbatim;
and for every falsy `error` value (null, but also false, 0, empty string,
empty list or empty dict) the result's `error` field is absent — presence
tracks Python truthiness of the error value, not merely non-nullness. -/
theorem claim_C7_error_path_decode (code msg : String) (e : JsonValue)
    (he : e.truthy = false) :
    (parse_response
        { status_code := 200,
          jsonBody := some (errorPathBody (.obj [("code", .str code), ("message", .str msg)])),
          textBody := "" } sampleTargetType).map
      (fun r => (r.data, r.error)) = .ok (none, some { code := code, message := msg })
    ∧ (parse_response
        { status_code := 200, jsonBody := some (errorPathBody e), textBody := "" }
        sampleTargetType).map
      (fun r => (r.data, r.error)) = .ok (none, none) := by
  constructor
  · rfl
  · cases e with
    | null => rfl
    | bool b => cases b with
      | false => rfl
      | true => exact absurd he (by simp [JsonValue.truthy])
    | num q =>
        have hq : q = 0 := by simpa [JsonValue.truthy] using he
        subst hq; rfl
    | str s =>
        have hs : s = "" := by simpa [JsonValue.truthy] using he
        subst hs; rfl
    | arr xs =>
        have hx : xs = [] := by simpa [JsonValue.truthy, List.isEmpty_iff] using he
        subst hx; rfl
    | obj kvs =>
        have hk : kvs = [] := by simpa [JsonValue.truthy, List.isEmpty_iff] using he
        subst hk; rfl

/-- C7 witness: the amended theorem applied at `code="LOW_CONFIDENCE"`,
`msg="too uncertain"` and the falsy error value `null`. -/
theorem claim_C7_error_path_decode_witness :
    (parse_response
        { status_code := 200,
          jsonBody := some (errorPathBody (.obj [("code", .str "LOW_CONFIDENCE"),
            ("message", .str "too uncertain")])),
          textBody := "" } sampleTargetType).map
      (fun r => (r.data, r.error)) =
        .ok (none, some { code := "LOW_CONFIDENCE", message := "too uncertain" })
    ∧ (parse_response
        { status_code := 200, jsonBody := some (errorPathBody .null), textBody := "" }
        sampleTargetType).map
      (fun r => (r.data, r.error)) = .ok (none, none) :=
  claim_C7_error_path_decode "LOW_CONFIDENCE" "too uncertain" .null rfl

/-- C6: every response with a non-2xx status raises `APIError` carrying
that status code and the raw body — JSON-decoded when `response.json()`
succeeds, otherwise the text — and no body decoding is performed (the
result is this transport error whatever the body holds). -/
theorem claim_C6_non2xx_raises_apiError {α : Type} (resp : HttpResponse)
    (schema : TargetType α) (h : resp.status_code < 200 ∨ 300 ≤ resp.status_code) :
    parse_response resp schema =
      .error (.apiError ("API request failed with status " ++ toString resp.status_code)
        resp.status_code
        (match resp.jsonBody with
         | some j => CapturedBody.jsonBody j
         | none => CapturedBody.textBody resp.textBody)) := by
  have hne : resp.status_code ≠ 200 := by rcases h with h | h <;> omega
  unfold parse_response
  rw [if_pos hne]
  exact rfl

/-- C6 witness: a 401 response with a JSON body raises `APIError` with
`status_code = 401` and the captured body. -/
theorem claim_C6_non2xx_raises_apiError_witness :
    parse_response
      { status_code := 401, jsonBody := some (.obj [("error", .str "Unauthorized")]),
        textBody := "" } sampleTargetType
      = .error (.apiError "API request failed with status 401" 401
          (.jsonBody (.obj [("error", .str "Unauthorized")]))) :=
  claim_C6_non2xx_raises_apiError _ sampleTargetType (Or.inr (by norm_num))

/-- The Python class a raised exception belongs to. -/
def exceptionClass : PyException → String
  | .keyError _ => "KeyError"
  | .attributeError _ => "AttributeError"
  | .typeError _ => "TypeError"
  | .jsonDecodeError => "json.JSONDecodeError"
  | .pydanticValidationError _ => "pydantic.ValidationError"
  | .apiError _ _ _ => "parsefy.errors.APIError"
  | .validationError _ => "parsefy.errors.ValidationError"

/-- C8 counterexample: a 200 response whose body is missing the required
`metadata` key fails with a raw Python `KeyError`, which is not an
instance of the SDK base category `ParsefyError`. -/
theorem claim_C8_counterexample_keyError_not_parsefyError :
    parse_response { status_code := 200, jsonBody := some (.obj []), textBody := "" }
        sampleTargetType = .error (.keyError "metadata")
    ∧ isParsefyError (.keyError "metadata") = false :=
  ⟨rfl, rfl⟩

/-- A body whose extracted `object` payload does not conform to the
two-field target type (`name` is a number, not a string). -/
def malformedObjectBody : JsonValue :=
  .obj [("object", .obj [("name", .num 1), ("value", .num 42)]),
        ("metadata", fullMetadataObj),
        ("error", .null)]

theorem except_bind_error_inv {ε β γ : Type} {x : Except ε β} {f : β → Except ε γ} {e : ε}
    (h : x >>= f = Except.error e) :
    x = Except.error e ∨ ∃ b, x = Except.ok b ∧ f b = Except.error e := by
  cases x with
  | error eFirst =>
      have he : eFirst = e := Except.error.inj h
      exact Or.inl (by rw [he])
  | ok b => exact Or.inr ⟨b, rfl, h⟩

theorem getKey_error_not_parsefy {v : JsonValue} {k : String} {e : PyException}
    (h : getKey v k = .error e) : isParsefyError e = false := by
  cases v with
  | obj kvs =>
      simp only [getKey] at h
      cases hf : kvs.find? (fun kv => kv.1 == k) with
      | some kv => rw [hf] at h; exact Except.noConfusion h
      | none => rw [hf] at h; have := Except.error.inj h; subst this; rfl
  | null => have := Except.error.inj h; subst this; rfl
  | bool b => have := Except.error.inj h; subst this; rfl
  | num q => have := Except.error.inj h; subst this; rfl
  | str s => have := Except.error.inj h; subst this; rfl
  | arr xs => have := Except.error.inj h; subst this; rfl

theorem dictGet_error_not_parsefy {v : JsonValue} {k : String} {e : PyException}
    (h : dictGet v k = .error e) : isParsefyError e = false := by
  cases v with
  | obj kvs => exact Except.noConfusion h
  | null => have := Except.error.inj h; subst this; rfl
  | bool b => have := Except.error.inj h; subst this; rfl
  | num q => have := Except.error.inj h; subst this; rfl
  | str s => have := Except.error.inj h; subst this; rfl
  | arr xs => have := Except.error.inj h; subst this; rfl

theorem parseExtractionMetadata_error_not_parsefy {m : JsonValue} {e : PyException}
    (h : parseExtractionMetadata m = .error e) : isParsefyError e = false := by
  unfold parseExtractionMetadata at h
  rcases except_bind_error_inv h with h1 | ⟨pt, hpt, h⟩
  · exact getKey_error_not_parsefy h1
  rcases except_bind_error_inv h with h1 | ⟨x1, hx1, h⟩
  · exact getKey_error_not_parsefy h1
  rcases except_bind_error_inv h with h1 | ⟨x2, hx2, h⟩
  · exact getKey_error_not_parsefy h1
  rcases except_bind_error_inv h with h1 | ⟨cr, hcr, h⟩
  · exact getKey_error_not_parsefy h1
  rcases except_bind_error_inv h with h1 | ⟨fb, hfb, h⟩
  · exact getKey_error_not_parsefy h1
  try simp only [] at h
  split at h
  · exact Except.noConfusion h
  · have := Except.error.inj h; subst this; rfl

theorem parseFieldConfidence_error_not_parsefy {fc : JsonValue} {e : PyException}
    (h : parseFieldConfidence fc = .error e) : isParsefyError e = false := by
  unfold parseFieldConfidence at h
  rcases except_bind_error_inv h with h1 | ⟨f, hf, h⟩
  · exact getKey_error_not_parsefy h1
  rcases except_bind_error_inv h with h1 | ⟨s, hs, h⟩
  · exact getKey_error_not_parsefy h1
  rcases except_bind_error_inv h with h1 | ⟨r, hr, h⟩
  · exact getKey_error_not_parsefy h1
  rcases except_bind_error_inv h with h1 | ⟨p, hp, h⟩
  · exact getKey_error_not_parsefy h1
  rcases except_bind_error_inv h with h1 | ⟨t, ht, h⟩
  · exact getKey_error_not_parsefy h1
  try simp only [] at h
  split at h
  · exact Except.noConfusion h
  · have := Except.error.inj h; subst this; rfl

theorem mapM_parseFieldConfidence_error_not_parsefy :
    ∀ (xs : List JsonValue) {e : PyException},
      xs.mapM parseFieldConfidence = .error e → isParsefyError e = false := by
  intro xs
  induction xs with
  | nil => intro e h; rw [List.mapM_nil] at h; exact Except.noConfusion h
  | cons x xs ih =>
      intro e h
      rw [List.mapM_cons] at h
      rcases except_bind_error_inv h with h1 | ⟨y, hy, h⟩
      · exact parseFieldConfidence_error_not_parsefy h1
      rcases except_bind_error_inv h with h1 | ⟨ys, hys, h⟩
      · exact ih h1
      exact Except.noConfusion h

theorem parseFieldConfidenceList_error_not_parsefy {fcRaw : Option JsonValue}
    {e : PyException} (h : parseFieldConfidenceList fcRaw = .error e) :
    isParsefyError e = false := by
  unfold parseFieldConfidenceList at h
  split at h
  · exact mapM_parseFieldConfidence_error_not_parsefy _ h
  · have := Except.error.inj h; subst this; rfl

theorem parseExtractionMeta_error_not_parsefy {md : JsonValue} {e : PyException}
    (h : parseExtractionMeta md = .error e) : isParsefyError e = false := by
  unfold parseExtractionMeta at h
  rcases except_bind_error_inv h with h1 | ⟨fcRaw, hfc, h⟩
  · exact dictGet_error_not_parsefy h1
  rcases except_bind_error_inv h with h1 | ⟨fcs, hfcs, h⟩
  · exact parseFieldConfidenceList_error_not_parsefy h1
  rcases except_bind_error_inv h with h1 | ⟨cs, hcs, h⟩
  · exact getKey_error_not_parsefy h1
  rcases except_bind_error_inv h with h1 | ⟨issuesRaw, hiss, h⟩
  · exact dictGet_error_not_parsefy h1
  try simp only [] at h
  split at h
  · exact Except.noConfusion h
  · have := Except.error.inj h; subst this; rfl

theorem parseOptMeta_error_not_parsefy {mv : Option JsonValue} {e : PyException}
    (h : parseOptMeta mv = .error e) : isParsefyError e = false := by
  cases mv with
  | none => exact Except.noConfusion h
  | some m =>
      simp only [parseOptMeta] at h
      by_cases ht : m.truthy
      · rw [if_pos ht] at h
        rcases except_bind_error_inv h with h1 | ⟨x, hx, h⟩
        · exact parseExtractionMeta_error_not_parsefy h1
        · exact Except.noConfusion h
      · rw [if_neg ht] at h
        exact Except.noConfusion h

theorem parseAPIErrorDetail_error_not_parsefy {ev : JsonValue} {e : PyException}
    (h : parseAPIErrorDetail ev = .error e) : isParsefyError e = false := by
  unfold parseAPIErrorDetail at h
  rcases except_bind_error_inv h with h1 | ⟨c, hc, h⟩
  · exact getKey_error_not_parsefy h1
  rcases except_bind_error_inv h with h1 | ⟨m, hm, h⟩
  · exact getKey_error_not_parsefy h1
  try simp only [] at h
  split at h
  · exact Except.noConfusion h
  · have := Except.error.inj h; subst this; rfl

theorem parseOptError_error_not_parsefy {ev : Option JsonValue} {e : PyException}
    (h : parseOptError ev = .error e) : isParsefyError e = false := by
  cases ev with
  | none => exact Except.noConfusion h
  | some v =>
      simp only [parseOptError] at h
      by_cases ht : v.truthy
      · rw [if_pos ht] at h
        rcases except_bind_error_inv h with h1 | ⟨x, hx, h⟩
        · exact parseAPIErrorDetail_error_not_parsefy h1
        · exact Except.noConfusion h
      · rw [if_neg ht] at h
        exact Except.noConfusion h

theorem parseObjectPayload_error_eq {α : Type} {schema : TargetType α}
    {objVal : Option JsonValue} {e : PyException}
    (h : parseObjectPayload schema objVal = .error e) :
    e = .pydanticValidationError schema.name := by
  unfold parseObjectPayload at h
  by_cases hn : (objVal.getD JsonValue.null).isNull
  · rw [if_pos hn] at h; exact Except.noConfusion h
  · rw [if_neg hn] at h
    cases hv : schema.validate (objVal.getD JsonValue.null) with
    | some a => rw [hv] at h; exact Except.noConfusion h
    | none => rw [hv] at h; exact (Except.error.inj h).symm

theorem parse_response_error_not_parsefy {α : Type} (resp : HttpResponse)
    (schema : TargetType α) (e : PyException) (h200 : resp.status_code = 200)
    (h : parse_response resp schema = .error e) : isParsefyError e = false := by
  unfold parse_response at h
  have hne : ¬(resp.status_code ≠ 200) := by rw [h200]; simp
  rw [if_neg hne] at h
  cases hb : resp.jsonBody with
  | none => rw [hb] at h; have := Except.error.inj h; subst this; rfl
  | some body =>
      simp only [hb] at h
      rcases except_bind_error_inv h with h1 | ⟨mObj, h1, h⟩
      · exact getKey_error_not_parsefy h1
      rcases except_bind_error_inv h with h2 | ⟨md, h2, h⟩
      · exact parseExtractionMetadata_error_not_parsefy h2
      rcases except_bind_error_inv h with h3 | ⟨metaVal, h3, h⟩
      · exact dictGet_error_not_parsefy h3
      rcases except_bind_error_inv h with h4 | ⟨metaOpt, h4, h⟩
      · exact parseOptMeta_error_not_parsefy h4
      rcases except_bind_error_inv h with h5 | ⟨errVal, h5, h⟩
      · exact dictGet_error_not_parsefy h5
      rcases except_bind_error_inv h with h6 | ⟨errOpt, h6, h⟩
      · exact parseOptError_error_not_parsefy h6
      rcases except_bind_error_inv h with h7 | ⟨objVal, h7, h⟩
      · exact dictGet_error_not_parsefy h7
      rcases except_bind_error_inv h with h8 | ⟨extracted, h8, h⟩
      · rw [parseObjectPayload_error_eq h8]; rfl
      exact Except.noConfusion h

/-- A 200 response wrapping a JSON body, with empty text. -/
def resp200 (body : JsonValue) : HttpResponse :=
  { status_code := 200, jsonBody := some body, textBody := "" }

/-- A body whose `metadata` value is the integer 5, not a dict. -/
def nonDictMetadataBody : JsonValue := .obj [("metadata", .num 5)]

/-- A body whose `_meta` value is the truthy string `"x"`, not a dict. -/
def nonDictMetaBody : JsonValue :=
  .obj [("object", .null),
        ("metadata", fullMetadataObj),
        ("_meta", .str "x"),
        ("error", .null)]

/-- A body whose `_meta.field_confidence` entry has a string score, so the
field-confidence record itself fails pydantic validation. -/
def malformedFieldConfidenceBody : JsonValue :=
  .obj [("object", .null),
        ("metadata", fullMetadataObj),
        ("_meta", .obj [("confidence_score", .num 0.5),
          ("field_confidence", .arr [.obj [("field", .str "$.name"),
            ("score", .str "high"), ("reason", .str "r"),
            ("page", .null), ("text", .null)]])]),
        ("error", .null)]

/-- C8 (amended): on every 200 response, a decode failure surfaces as a
raw Python exception and never as an error of the SDK base category
`ParsefyError` (first conjunct, universal); a failure of the extracted
object to validate against the target type is always a
`pydantic.ValidationError` tagged with the target type (second conjunct,
universal). The concrete conjuncts exhibit the classes actually raised: a
missing `metadata` key gives `KeyError` naming the key, a non-dict
`metadata` gives `TypeError`, a non-dict `_meta` gives `AttributeError`,
and a malformed field-confidence entry gives `pydantic.ValidationError` —
the same exception class as a target-type failure, so target-type
failures are class-distinct from the key-access errors but not from all
other decode failures. -/
theorem claim_C8_decode_failure_classes :
    (∀ {α : Type} (resp : HttpResponse) (schema : TargetType α) (e : PyException),
        resp.status_code = 200 → parse_response resp schema = .error e →
        isParsefyError e = false)
    ∧ (∀ {α : Type} (schema : TargetType α) (objVal : Option JsonValue) (e : PyException),
        parseObjectPayload schema objVal = .error e →
        e = .pydanticValidationError schema.name)
    ∧ parse_response (resp200 (.obj [("object", .null)])) sampleTargetType
        = .error (.keyError "metadata")
    ∧ parse_response (resp200 nonDictMetadataBody) sampleTargetType
        = .error (.typeError "value is not subscriptable by a string key")
    ∧ parse_response (resp200 nonDictMetaBody) sampleTargetType
        = .error (.attributeError "get")
    ∧ parse_response (resp200 malformedFieldConfidenceBody) sampleTargetType
        = .error (.pydanticValidationError "FieldConfidence")
    ∧ parse_response (resp200 malformedObjectBody) sampleTargetType
        = .error (.pydanticValidationError "SampleSchema")
    ∧ (exceptionClass (.pydanticValidationError "SampleSchema")
        == exceptionClass (.keyError "metadata")) = false
    ∧ (exceptionClass (.pydanticValidationError "SampleSchema")
        == exceptionClass (.typeError "value is not subscriptable by a string key")) = false
    ∧ (exceptionClass (.pydanticValidationError "SampleSchema")
        == exceptionClass (.attributeError "get")) = false
    ∧ (exceptionClass (.pydanticValidationError "SampleSchema")
        == exceptionClass (.pydanticValidationError "FieldConfidence")) = true :=
  ⟨fun resp schema e h200 h => parse_response_error_not_parsefy resp schema e h200 h,
   fun _ _ _ h => parseObjectPayload_error_eq h,
   rfl, rfl, rfl, rfl, rfl, rfl, rfl, rfl, rfl⟩

/-- C8 witness: the universal conjuncts applied at a concrete decode
failure (missing `metadata` key) and a concrete target-type validation
failure. -/
theorem claim_C8_decode_failure_classes_witness :
    isParsefyError (PyException.keyError "metadata") = false
    ∧ PyException.pydanticValidationError "SampleSchema"
        = PyException.pydanticValidationError sampleTargetType.name :=
  ⟨claim_C8_decode_failure_classes.1
      (resp200 (.obj [("object", .null)]))
      sampleTargetType (.keyError "metadata") rfl rfl,
   claim_C8_decode_failure_classes.2.1 sampleTargetType
      (some (.obj [("name", .num 1), ("value", .num 42)]))
      (.pydanticValidationError "SampleSchema") rfl⟩

/-- A `_meta` block whose single field-confidence entry carries the
out-of-range score `1.5`. -/
def outOfRangeScoreBody : JsonValue :=
  .obj [("object", .obj [("name", .str "Test"), ("value", .num 42)]),
        ("_meta", .obj [("confidence_score", .num 0.95),
          ("field_confidence", .arr [.obj [("field", .str "$.name"),
            ("score", .num 1.5), ("reason", .str "overshoot"),
            ("page", .num 1), ("text", .str "Test")]])]),
        ("metadata", fullMetadataObj),
        ("error", .null)]

theorem except_bind_ok_inv {ε β γ : Type} {x : Except ε β} {f : β → Except ε γ} {c : γ}
    (h : x >>= f = Except.ok c) : ∃ b, x = Except.ok b ∧ f b = Except.ok c := by
  cases x with
  | error e => exact Except.noConfusion h
  | ok b => exact ⟨b, rfl, h⟩

theorem dictGet_ok_get? {v : JsonValue} {k : String} {o : Option JsonValue}
    (h : dictGet v k = .ok o) : v.get? k = o := by
  cases v with
  | obj kvs => exact Except.ok.inj h
  | null => exact Except.noConfusion h
  | bool b => exact Except.noConfusion h
  | num q => exact Except.noConfusion h
  | str s => exact Except.noConfusion h
  | arr xs => exact Except.noConfusion h

theorem isNull_false_ne_null {v : JsonValue} (h : v.isNull = false) :
    v ≠ JsonValue.null := by
  intro hv; subst hv; simp [JsonValue.isNull] at h

/-- C9 counterexample: the decoder accepts a field-confidence score of
`1.5` — `FieldConfidence.score` carries no range constraint — so the
claimed invariant that every decoded score lies in `[0,1]` fails. -/
theorem claim_C9_counterexample_score_out_of_range :
    (parse_response { status_code := 200, jsonBody := some outOfRangeScoreBody, textBody := "" }
        sampleTargetType).map
      (fun r => r.meta.map (fun m => m.field_confidence.map (fun fc => fc.score)))
      = .ok (some [(1.5 : Rat)])
    ∧ ¬((1.5 : Rat) ≤ 1) :=
  ⟨rfl, by norm_num⟩

/-- C9 (amended): the invariants the decoder does maintain — every
successfully decoded result has its `verification` field absent (the code
never populates it, so the verification counting invariant is vacuous),
and `data` is non-absent only when the body's `object` payload existed,
was non-null, and validated successfully against the target type. No
`[0,1]` range is enforced on field-confidence scores. -/
theorem claim_C9_decoder_invariants {α : Type} (resp : HttpResponse) (schema : TargetType α)
    (r : ExtractResult α) (h : parse_response resp schema = .ok r) :
    r.verification = none
    ∧ ∀ a, r.data = some a →
        ∃ body v, resp.jsonBody = some body ∧ body.get? "object" = some v
          ∧ v ≠ JsonValue.null ∧ schema.validate v = some a := by
  unfold parse_response at h
  by_cases h200 : resp.status_code ≠ 200
  · rw [if_pos h200] at h
    exact Except.noConfusion h
  · rw [if_neg h200] at h
    cases hb : resp.jsonBody with
    | none => rw [hb] at h; exact Except.noConfusion h
    | some body =>
      simp only [hb] at h
      obtain ⟨mObj, h1, h⟩ := except_bind_ok_inv h
      obtain ⟨md, h2, h⟩ := except_bind_ok_inv h
      obtain ⟨metaVal, h3, h⟩ := except_bind_ok_inv h
      obtain ⟨metaOpt, h4, h⟩ := except_bind_ok_inv h
      obtain ⟨errVal, h5, h⟩ := except_bind_ok_inv h
      obtain ⟨errOpt, h6, h⟩ := except_bind_ok_inv h
      obtain ⟨objVal, h7, h⟩ := except_bind_ok_inv h
      obtain ⟨extracted, h8, h⟩ := except_bind_ok_inv h
      have hr : r = { data := extracted, meta := metaOpt, metadata := md,
                      verification := none, error := errOpt } := (Except.ok.inj h).symm
      constructor
      · rw [hr]
      · intro a ha
        rw [hr] at ha
        simp only at ha
        unfold parseObjectPayload at h8
        by_cases hn : (objVal.getD JsonValue.null).isNull
        · rw [if_pos hn] at h8
          have hext : extracted = none := (Except.ok.inj h8).symm
          rw [hext] at ha
          exact Option.noConfusion ha
        · rw [if_neg hn] at h8
          cases hv : schema.validate (objVal.getD JsonValue.null) with
          | none => simp only [hv] at h8; exact Except.noConfusion h8
          | some b =>
            simp only [hv] at h8
            have hext : extracted = some b := (Except.ok.inj h8).symm
            rw [hext] at ha
            have hab : b = a := Option.some.inj ha
            cases objVal with
            | none => simp [Option.getD, JsonValue.isNull] at hn
            | some v =>
              refine ⟨body, v, rfl, ?_, ?_, ?_⟩
              · rw [dictGet_ok_get? h7]
              · exact isNull_false_ne_null (by simpa using hn)
              · rw [← hab]; simpa using hv

/-- A straightforwardly successful body for exercising the invariant
theorem: non-null validating `object`, no `_meta`, `error:null`. -/
def c9Body : JsonValue :=
  .obj [("object", .obj [("name", .str "Ok"), ("value", .num 7)]),
        ("metadata", fullMetadataObj),
        ("error", .null)]

/-- The result `c9Body` decodes to. -/
def c9Result : ExtractResult SampleTarget :=
  { data := some { name := "Ok", value := 7 }, meta := none,
    metadata := { processing_time_ms := 1500, credits := 1, fallback_triggered := false },
    verification := none, error := none }

/-- C9 witness: the invariant theorem applied to a concrete successful
decode. -/
theorem claim_C9_decoder_invariants_witness :
    parse_response { status_code := 200, jsonBody := some c9Body, textBody := "" }
        sampleTargetType = .ok c9Result
    ∧ c9Result.verification = none :=
  ⟨rfl,
   (claim_C9_decoder_invariants
      { status_code := 200, jsonBody := some c9Body, textBody := "" }
      sampleTargetType c9Result rfl).1⟩

/-! ## Input gate (`Parsefy._prepare_file`) -/

/-- File content, abstracted to its byte length: the gate's checks depend
only on `len(file_bytes)`, and the content travels through unchanged. -/
structure Bytes where
  size : Nat
deriving Repr, DecidableEq

/-- The fixed extension allow-list `MIME_TYPES` from `client.py`. -/
def MIME_TYPES : List (String × String) :=
  [(".pdf", "application/pdf"),
   (".docx", "application/vnd.openxmlformats-officedocument.wordprocessingml.document")]

/-- `MAX_FILE_SIZE = 10 * 1024 * 1024`. -/
def MAX_FILE_SIZE : Nat := 10 * 1024 * 1024

/-- Index of the last dot in a character list. -/
def lastDotIdx : List Char → Option Nat
  | [] => none
  | c :: cs =>
      match lastDotIdx cs with
      | some i => some (i + 1)
      | none => if c = '.' then some 0 else none

/-- `pathlib.PurePath(name).suffix`: the extension of the final component
from its last dot (dot included), empty when that dot is leading or
trailing or absent. -/
def pathSuffix (name : String) : String :=
  let cs := name.toList
  match lastDotIdx cs with
  | some i => if 0 < i ∧ i + 1 < cs.length then String.mk (cs.drop i) else ""
  | none => ""

/-- `str.lower()` (character-wise lowercasing). -/
def strLower (s : String) : String := String.mk (s.toList.map Char.toLower)

/-- `MIME_TYPES` membership / `MIME_TYPES.get(suffix)`. -/
def mimeLookup (ext : String) : Option String :=
  (MIME_TYPES.find? (fun kv => kv.1 == ext)).map (fun kv => kv.2)

/-- The `file` argument of `_prepare_file`: a filesystem path (final name,
whether it exists on disk, content), raw bytes, or an open binary stream
with an optional `name` attribute. -/
inductive FileInput where
  | path (name : String) (onDisk : Bool) (content : Bytes)
  | bytes (content : Bytes)
  | stream (nameAttr : Option String) (content : Bytes)
deriving Repr, DecidableEq

/-- The byte length of an input's content. -/
def contentSize : FileInput → Nat
  | .path _ _ c => c.size
  | .bytes c => c.size
  | .stream _ c => c.size

/-- The branch of `_prepare_file` that resolves the argument into a
`(filename, file_bytes, content_type)` triple: paths must exist and have
an allow-listed extension; raw bytes default to `document.pdf` and the PDF
type; streams take their `name` attribute (default `document.pdf`) and
fall back to the PDF type for an unrecognized extension. -/
def resolve_file (file : FileInput) : Except PyException (String × Bytes × String) :=
  match file with
  | .path name onDisk content =>
      if !onDisk then
        throw (.validationError ("File not found: " ++ name))
      else
        match mimeLookup (strLower (pathSuffix name)) with
        | none =>
            throw (.validationError ("Unsupported file type: " ++ strLower (pathSuffix name)
              ++ ". Only PDF and DOCX are supported."))
        | some ct => pure (name, content, ct)
  | .bytes content => pure ("document.pdf", content, "application/pdf")
  | .stream nameAttr content =>
      let filename := nameAttr.getD "document.pdf"
      pure (filename, content, (mimeLookup (strLower (pathSuffix filename))).getD "application/pdf")

/-- The trailing size checks of `_prepare_file`: empty content and content
over `MAX_FILE_SIZE` are validation failures, run after resolution for
every input kind. -/
def size_gate : String × Bytes × String → Except PyException (String × Bytes × String)
  | (filename, file_bytes, content_type) =>
      if file_bytes.size = 0 then
        throw (.validationError "File is empty.")
      else if MAX_FILE_SIZE < file_bytes.size then
        throw (.validationError ("File size (" ++ toString file_bytes.size
          ++ " bytes) exceeds maximum allowed size ("
          ++ toString MAX_FILE_SIZE ++ " bytes)."))
      else pure (filename, file_bytes, content_type)

/-- `Parsefy._prepare_file`. -/
def prepare_file (file : FileInput) : Except PyException (String × Bytes × String) := do
  let t ← resolve_file file
  size_gate t

/-- Did the call raise the SDK `ValidationError`? -/
def isValidationFailure : Except PyException (String × Bytes × String) → Bool
  | .error (.validationError _) => true
  | _ => false

/-- C5 counterexample: a byte stream whose `name` attribute carries the
unsupported extension `.txt` is not rejected — `_prepare_file` falls back
to a best-effort `application/pdf` content type for named streams. -/
theorem claim_C5_counterexample_named_stream_guessed :
    prepare_file (.stream (some "doc.txt") { size := 1 }) =
      .ok ("doc.txt", { size := 1 }, "application/pdf") := rfl

theorem except_throw_bind {ε β γ : Type} (e : ε) (f : β → Except ε γ) :
    (throw e : Except ε β) >>= f = Except.error e := rfl

theorem except_pure_bind {ε β γ : Type} (a : β) (f : β → Except ε γ) :
    (pure a : Except ε β) >>= f = f a := rfl

/-- C5 (amended): empty content and content over 10 MiB are validation
failures for every input kind, checked before any network activity; an
extension outside the allow-list is a validation failure for path inputs
only; a path input whose extension resolves in the allow-list is accepted
with that content type (so `.pdf` maps to `application/pdf` and `.docx` to
the DOCX type); a named byte stream with an unrecognized extension is
accepted with the best-effort fallback `application/pdf`; and a raw bytes
input is accepted with the default filename `document.pdf` and content
type `application/pdf`. -/
theorem claim_C5_file_gate :
    (∀ f : FileInput, contentSize f = 0 →
        isValidationFailure (prepare_file f) = true)
    ∧ (∀ f : FileInput, MAX_FILE_SIZE < contentSize f →
        isValidationFailure (prepare_file f) = true)
    ∧ (∀ name content, mimeLookup (strLower (pathSuffix name)) = none →
        isValidationFailure (prepare_file (.path name true content)) = true)
    ∧ (∀ name content ct, mimeLookup (strLower (pathSuffix name)) = some ct →
        content.size ≠ 0 → content.size ≤ MAX_FILE_SIZE →
        prepare_file (.path name true content) = .ok (name, content, ct))
    ∧ (∀ nm content, mimeLookup (strLower (pathSuffix nm)) = none →
        content.size ≠ 0 → content.size ≤ MAX_FILE_SIZE →
        prepare_file (.stream (some nm) content) = .ok (nm, content, "application/pdf"))
    ∧ (∀ content : Bytes, content.size ≠ 0 → content.size ≤ MAX_FILE_SIZE →
        prepare_file (.bytes content) = .ok ("document.pdf", content, "application/pdf")) := by
  refine ⟨?_, ?_, ?_, ?_, ?_, ?_⟩
  · intro f h
    cases f with
    | path name onDisk content =>
        simp only [contentSize] at h
        cases onDisk with
        | false => simp [prepare_file, resolve_file, except_throw_bind, isValidationFailure]
        | true =>
            cases hm : mimeLookup (strLower (pathSuffix name)) with
            | none =>
                simp [prepare_file, resolve_file, hm, except_throw_bind, isValidationFailure]
            | some ct =>
                simp [prepare_file, resolve_file, hm, except_pure_bind, size_gate, h,
                  isValidationFailure, except_throw_bind]
    | bytes content =>
        simp only [contentSize] at h
        simp [prepare_file, resolve_file, except_pure_bind, size_gate, h,
          isValidationFailure, except_throw_bind]
    | stream nm content =>
        simp only [contentSize] at h
        simp [prepare_file, resolve_file, except_pure_bind, size_gate, h,
          isValidationFailure, except_throw_bind]
  · intro f h
    cases f with
    | path name onDisk content =>
        simp only [contentSize] at h
        have h0 : content.size ≠ 0 := by unfold MAX_FILE_SIZE at h; omega
        cases onDisk with
        | false => simp [prepare_file, resolve_file, except_throw_bind, isValidationFailure]
        | true =>
            cases hm : mimeLookup (strLower (pathSuffix name)) with
            | none =>
                simp [prepare_file, resolve_file, hm, except_throw_bind, isValidationFailure]
            | some ct =>
                simp [prepare_file, resolve_file, hm, except_pure_bind, size_gate, h, h0,
                  isValidationFailure, except_throw_bind]
    | bytes content =>
        simp only [contentSize] at h
        have h0 : content.size ≠ 0 := by unfold MAX_FILE_SIZE at h; omega
        simp [prepare_file, resolve_file, except_pure_bind, size_gate, h, h0,
          isValidationFailure, except_throw_bind]
    | stream nm content =>
        simp only [contentSize] at h
        have h0 : content.size ≠ 0 := by unfold MAX_FILE_SIZE at h; omega
        simp [prepare_file, resolve_file, except_pure_bind, size_gate, h, h0,
          isValidationFailure, except_throw_bind]
  · intro name content hm
    simp [prepare_file, resolve_file, hm, except_throw_bind, isValidationFailure]
  · intro name content ct hm h0 hle
    have hlt : ¬(MAX_FILE_SIZE < content.size) := by omega
    simp [prepare_file, resolve_file, hm, except_pure_bind, size_gate, h0, hlt]
    exact rfl
  · intro nm content hm h0 hle
    have hlt : ¬(MAX_FILE_SIZE < content.size) := by omega
    simp [prepare_file, resolve_file, hm, except_pure_bind, size_gate, h0, hlt]
    exact rfl
  · intro content h0 hle
    have hlt : ¬(MAX_FILE_SIZE < content.size) := by omega
    simp [prepare_file, resolve_file, except_pure_bind, size_gate, h0, hlt]
    exact rfl

/-- C5 witness: the gate theorem applied at the spec's boundary cases — a
0-byte file, an 11 MiB file, a `.txt` path rejected; `.pdf` and `.docx`
paths accepted with their content types; a `.txt`-named stream and a raw
bytes input accepted with the `application/pdf` fallback/default. -/
theorem claim_C5_file_gate_witness :
    isValidationFailure (prepare_file (.bytes { size := 0 })) = true
    ∧ isValidationFailure (prepare_file (.bytes { size := 11534336 })) = true
    ∧ isValidationFailure (prepare_file (.path "test.txt" true { size := 3 })) = true
    ∧ prepare_file (.path "test.pdf" true { size := 3 }) =
        .ok ("test.pdf", { size := 3 }, "application/pdf")
    ∧ prepare_file (.path "report.docx" true { size := 3 }) =
        .ok ("report.docx", { size := 3 },
          "application/vnd.openxmlformats-officedocument.wordprocessingml.document")
    ∧ prepare_file (.stream (some "notes.txt") { size := 3 }) =
        .ok ("notes.txt", { size := 3 }, "application/pdf")
    ∧ prepare_file (.bytes { size := 3 }) =
        .ok ("document.pdf", { size := 3 }, "application/pdf") :=
  ⟨claim_C5_file_gate.1 _ rfl,
   claim_C5_file_gate.2.1 _ (by decide),
   claim_C5_file_gate.2.2.1 "test.txt" _ rfl,
   claim_C5_file_gate.2.2.2.1 "test.pdf" _ _ rfl (by decide) (by decide),
   claim_C5_file_gate.2.2.2.1 "report.docx" _ _ rfl (by decide) (by decide),
   claim_C5_file_gate.2.2.2.2.1 "notes.txt" _ rfl (by decide) (by decide),
   claim_C5_file_gate.2.2.2.2.2 _ (by decide) (by decide)⟩

/-! ## Client construction (`Parsefy.__init__`) -/

/-- Python truthiness of an optional string: `None` and `""` are falsy. -/
def strOptTruthy : Option String → Bool
  | none => false
  | some s => !(s == "")

/-- The message of the missing-credential `ValidationError`. -/
def initErrMsg : String :=
  "API key is required. Pass it directly or set PARSEFY_API_KEY environment variable."

/-- The credential resolution of `Parsefy.__init__`:
`self.api_key = api_key or os.environ.get("PARSEFY_API_KEY")`, then
`if not self.api_key: raise ValidationError(...)`. Returns the accepted
key. -/
def parsefy_init (api_key : Option String) (env_api_key : Option String) :
    Except PyException String :=
  let resolved := if strOptTruthy api_key then api_key else env_api_key
  if strOptTruthy resolved then .ok (resolved.getD "")
  else .error (.validationError initErrMsg)

theorem strOptTruthy_false_iff (x : Option String) :
    strOptTruthy x = false ↔ (x = none ∨ x = some "") := by
  cases x with
  | none => simp [strOptTruthy]
  | some s => simp [strOptTruthy]

/-- C10: construction raises the SDK `ValidationError` exactly when both
the `api_key` argument and the `PARSEFY_API_KEY` environment variable are
absent or empty (Python-falsy); and an explicitly supplied empty-string
`api_key` is silently replaced by the environment variable's value. -/
theorem claim_C10_api_key_resolution :
    (∀ a e : Option String,
        parsefy_init a e = .error (.validationError initErrMsg)
          ↔ ((a = none ∨ a = some "") ∧ (e = none ∨ e = some "")))
    ∧ (∀ s : String, s ≠ "" → parsefy_init (some "") (some s) = .ok s) := by
  constructor
  · intro a e
    rw [← strOptTruthy_false_iff, ← strOptTruthy_false_iff]
    by_cases ha : strOptTruthy a <;> by_cases he : strOptTruthy e <;>
      simp [parsefy_init, ha, he]
  · intro s hs
    simp [parsefy_init, strOptTruthy, hs]

/-- C10 witness: both credentials missing raises; an empty-string argument
with `PARSEFY_API_KEY="env_key"` resolves to `"env_key"`. -/
theorem claim_C10_api_key_resolution_witness :
    parsefy_init none none = .error (.validationError initErrMsg)
    ∧ parsefy_init (some "") (some "env_key") = .ok "env_key" :=
  ⟨(claim_C10_api_key_resolution.1 none none).2 ⟨Or.inl rfl, Or.inl rfl⟩,
   claim_C10_api_key_resolution.2 "env_key" (by decide)⟩

end Parsefy
